import Mathlib

/-!
Verification development for the miflora-mqtt-daemon polling/retry/publish
scheduler (src/miflora-mqtt-daemon.py), shallowly embedded in Lean 4.

The embedding covers: the per-sensor health counters and the bounded-retry
acquisition loop of pool_sensors (lines 199-233), the per-mode publish
dispatch (lines 235-277), the worker loop of sensorPooler.run (lines
292-307) including the hciLock discipline, the startup configuration checks
(lines 338-344 and init_sensors' MAC validation, lines 154-157), the
registry population of init_sensors (lines 183-196), the local "json" mode
output (lines 269-275), and the homeassistant-mqtt discovery block for
MiTempBt sensors (lines 486-506).

External collaborators (the Bluetooth reader, the MQTT client) are modelled
as opaque behaviours: a reader is a function from attempt index to an
optional Reading (an attempt either raises, modelled as none, or fills the
poller cache with a full set of parameter values, modelled as some).
-/

namespace Miflora

/-- A JSON-serializable scalar value as produced by the daemon:
`vint n` prints as Python prints an int, `vdec ip f` prints as `ip.f`
(the shape of Python's repr of floats such as 21.5), `vstr s` as a
quoted string. -/
inductive Val where
  | vint : Int → Val
  | vdec : Int → Nat → Val
  | vstr : String → Val
deriving DecidableEq, Repr

/-- A Reading: the `data` dict built in pool_sensors — an ordered mapping
from parameter name to value. -/
abbrev Reading := List (String × Val)

/-- One MQTT publish call: topic, payload, qos, retain — the arguments of
mqtt_client.publish.  paho's defaults are qos 0, retain false. -/
structure PublishAction where
  topic : String
  payload : String
  qos : Nat
  retain : Bool
deriving DecidableEq, Repr

/-- The per-sensor health counters: sensor['stats'] =
\x7b"count": 0, "success": 0, "failure": 0\x7d. -/
structure Stats where
  count : Nat
  success : Nat
  failure : Nat
deriving DecidableEq, Repr

/-- sensor['stats'] as initialized in init_sensors (line 182). -/
def initialStats : Stats := ⟨0, 0, 0⟩

/-- The seven recognized values of reporting_mode (source line 339). -/
inductive Mode where
  | mqttJson
  | thingsboardJson
  | homeassistantMqtt
  | mqttHomie
  | mqttSmarthome
  | wirenboardMqtt
  | localJson
deriving DecidableEq, Repr

/-! ## JSON serialization (the fragment of Python's json.dumps used for
flat objects of scalars, with its default separators ", " and ": "),
and a parser for the same fragment, used to state the round-trip claim. -/

/-- Render a value the way json.dumps renders the corresponding Python
scalar. -/
def valToJson : Val → String
  | .vint n => toString n
  | .vdec ip f => toString ip ++ "." ++ toString f
  | .vstr s => "\"" ++ s ++ "\""

/-- Render a value the way str() renders it (raw scalar payloads of the
mqtt-homie and wirenboard-mqtt modes). -/
def valRaw : Val → String
  | .vint n => toString n
  | .vdec ip f => toString ip ++ "." ++ toString f
  | .vstr s => s

/-- json.dumps of a flat object, with Python's default separators. -/
def jsonDumps (data : Reading) : String :=
  "\x7b" ++ String.intercalate ", "
      (data.map (fun kv => "\"" ++ kv.1 ++ "\": " ++ valToJson kv.2))
    ++ "\x7d"

def skipSpaces : List Char → List Char
  | ' ' :: rest => skipSpaces rest
  | cs => cs

/-- Split a leading run of decimal digits off a character list. -/
def takeDigits : List Char → List Char × List Char
  | [] => ([], [])
  | c :: rest =>
    if c.isDigit then
      let p := takeDigits rest
      (c :: p.1, p.2)
    else ([], c :: rest)

def digitsToNat (ds : List Char) : Nat :=
  ds.foldl (fun n c => n * 10 + (c.toNat - 48)) 0

/-- Parse the characters of a JSON string up to the closing quote. -/
def takeStr : List Char → Option (List Char × List Char)
  | [] => none
  | '"' :: rest => some ([], rest)
  | c :: rest => (takeStr rest).map (fun p => (c :: p.1, p.2))

/-- Parse one JSON scalar (number or string). -/
def parseVal (cs : List Char) : Option (Val × List Char) :=
  match cs with
  | '"' :: rest => (takeStr rest).map (fun p => (Val.vstr (String.mk p.1), p.2))
  | _ =>
    let sp : Bool × List Char := match cs with
      | '-' :: r => (true, r)
      | _ => (false, cs)
    let ip := takeDigits sp.2
    if ip.1 = [] then none
    else
      let ipz : Int := if sp.1 then -(digitsToNat ip.1 : Int) else (digitsToNat ip.1 : Int)
      match ip.2 with
      | '.' :: r2 =>
        let fp := takeDigits r2
        if fp.1 = [] then none
        else some (Val.vdec ipz (digitsToNat fp.1), fp.2)
      | r2 => some (Val.vint ipz, r2)

/-- Parse a comma-separated run of "key": value pairs (fuel-bounded). -/
def parsePairs : Nat → List Char → Option (List (String × Val) × List Char)
  | 0, _ => none
  | fuel + 1, cs =>
    match skipSpaces cs with
    | '"' :: rest =>
      match takeStr rest with
      | none => none
      | some (k, r1) =>
        match skipSpaces r1 with
        | ':' :: r2 =>
          match parseVal (skipSpaces r2) with
          | none => none
          | some (v, r3) =>
            match skipSpaces r3 with
            | ',' :: r4 =>
              match parsePairs fuel r4 with
              | none => none
              | some (ps, r5) => some ((String.mk k, v) :: ps, r5)
            | r4 => some ([(String.mk k, v)], r4)
        | _ => none
    | _ => none

/-- Deserialize a flat JSON object of scalars (the inverse direction of
jsonDumps, i.e. what json.loads recovers from such a payload). -/
def jsonParse (s : String) : Option Reading :=
  match skipSpaces s.data with
  | '\x7b' :: rest =>
    match skipSpaces rest with
    | '\x7d' :: r2 => if skipSpaces r2 = [] then some [] else none
    | cs =>
      match parsePairs (cs.length + 1) cs with
      | none => none
      | some (ps, r) =>
        match skipSpaces r with
        | '\x7d' :: r2 => if skipSpaces r2 = [] then some ps else none
        | _ => none
  | _ => none

/-! ## Acquisition protocol (pool_sensors lines 202-229)

The reader behaviour is a function from attempt index to an optional
Reading: attempt i either raises one of the caught exceptions (none) or
fills the poller cache (some data).  The while loop
`while attempts != 0 and not sensor['poller']._cache` starts with
attempts = 2 and an emptied cache; a raising attempt decrements attempts
and clears the cache, a successful attempt fills the cache and so ends
the loop. -/

/-- The retry loop: returns the acquired Reading (if any) together with
the number of fill attempts actually issued.  First argument: index of
the next attempt; second: remaining value of the `attempts` counter. -/
def runAcquireLoop (reader : Nat → Option Reading) : Nat → Nat → Option Reading × Nat
  | _, 0 => (none, 0)
  | i, a + 1 =>
    match reader i with
    | some r => (some r, 1)
    | none =>
      let p := runAcquireLoop reader (i + 1) a
      (p.1, p.2 + 1)

/-- The per-sensor body of pool_sensors acting on the health counters:
increments count, runs the retry loop with attempts = 2, then increments
exactly one of success / failure according to the outcome. -/
def acquire (reader : Nat → Option Reading) (st : Stats) : Option Reading × Stats :=
  let st1 : Stats := { st with count := st.count + 1 }
  match (runAcquireLoop reader 0 2).1 with
  | none => (none, { st1 with failure := st1.failure + 1 })
  | some r => (some r, { st1 with success := st1.success + 1 })

/-! ## Publish dispatch (pool_sensors lines 235-277)

A pure function of the reading, the sensor identity and the configured
mode, plus the two clock reads (time()*1000 for mqtt-smarthome, the
strftime local-time string for wirenboard-mqtt).  The local-only "json"
mode prints to stdout rather than publishing; its output is modelled
separately (jsonModeOutput below) because it also reads
sensor['firmware']. -/

def dispatch (mode : Mode) (base deviceId sensorName : String)
    (data : Reading) (tsMs : Nat) (localTime : String) : List PublishAction :=
  match mode with
  | .mqttJson =>
    [⟨base ++ "/" ++ sensorName, jsonDumps data, 0, false⟩]
  | .thingsboardJson =>
    [⟨base, jsonDumps data, 0, false⟩]
  | .homeassistantMqtt =>
    [⟨(base ++ "/sensor/" ++ sensorName ++ "/state").toLower, jsonDumps data, 0, true⟩]
  | .mqttHomie =>
    data.map (fun kv =>
      ⟨base ++ "/" ++ deviceId ++ "/" ++ sensorName ++ "/" ++ kv.1, valRaw kv.2, 1, false⟩)
  | .mqttSmarthome =>
    data.map (fun kv =>
      ⟨base ++ "/status/" ++ sensorName ++ "/" ++ kv.1,
       jsonDumps [("val", kv.2), ("ts", Val.vint (tsMs : Int))], 0, true⟩)
  | .wirenboardMqtt =>
    (data.map (fun kv =>
      ⟨"/devices/" ++ sensorName ++ "/controls/" ++ kv.1, valRaw kv.2, 0, true⟩))
    ++ [⟨"/devices/" ++ sensorName ++ "/controls/timestamp", localTime, 0, true⟩]
  | .localJson => []

/-! ## Sensor instances and the polling pass (pool_sensors lines 199-278) -/

/-- One SensorInstance as built by init_sensors: identity metadata, the
firmware string captured at first successful contact (absent when the
initial connection failed), and the health counters. -/
structure Sensor where
  nameClean : String
  namePretty : String
  mac : String
  firmware : Option String
  stats : Stats
deriving DecidableEq, Repr

/-- The per-sensor body of pool_sensors: acquire (mutating the stats),
and on success dispatch the reading; on failure produce no publish
action (the code logs a warning and `continue`s). -/
def poolOne (mode : Mode) (base deviceId : String) (tsMs : Nat) (localTime : String)
    (reader : Nat → Option Reading) (s : Sensor) : Sensor × List PublishAction :=
  let p := acquire reader s.stats
  match p.1 with
  | none => ({ s with stats := p.2 }, [])
  | some data => ({ s with stats := p.2 }, dispatch mode base deviceId s.nameClean data tsMs localTime)

/-- One full polling pass of pool_sensors: every sensor of the registry is
processed, in registry order, each with its own reader behaviour for this
cycle. -/
def poolSensors (mode : Mode) (base deviceId : String) (tsMs : Nat) (localTime : String)
    (xs : List ((Nat → Option Reading) × Sensor)) : List (Sensor × List PublishAction) :=
  xs.map (fun rs => poolOne mode base deviceId tsMs localTime rs.1 rs.2)

/-! ## Worker cycle trace (sensorPooler.run lines 292-307)

One iteration of the `while True` loop as a list of events:
`with self.hciLock:` acquires the lock, pool_sensors runs (publishing)
inside the with-block, the lock is released when the block exits, and
only then — in daemon mode — the worker sleeps. -/

inductive Event where
  | lockAcquire : Event
  | lockRelease : Event
  | publish : PublishAction → Event
  | sleepCycle : Event
deriving DecidableEq, Repr

def isPublishEv : Event → Bool
  | .publish _ => true
  | _ => false

/-- The publish events of one polling pass, in order. -/
def poolPublishEvents (mode : Mode) (base deviceId : String) (tsMs : Nat) (localTime : String)
    (xs : List ((Nat → Option Reading) × Sensor)) : List Event :=
  ((poolSensors mode base deviceId tsMs localTime xs).map
    (fun p => p.2.map Event.publish)).flatten

/-- The event trace of one iteration of the worker loop. -/
def cycleEvents (daemonFlag : Bool) (mode : Mode) (base deviceId : String)
    (tsMs : Nat) (localTime : String)
    (xs : List ((Nat → Option Reading) × Sensor)) : List Event :=
  Event.lockAcquire :: poolPublishEvents mode base deviceId tsMs localTime xs
    ++ Event.lockRelease :: (if daemonFlag then [Event.sleepCycle] else [])

/-- How one event changes the lock-held flag. -/
def updHeld (held : Bool) : Event → Bool
  | .lockAcquire => true
  | .lockRelease => false
  | _ => held

/-- Annotate each event of a trace with whether the bus lock is held while
it executes (held on entry for a plain event; an acquire executes holding
the lock, a release executes having given it up). -/
def annotateHeld (held : Bool) : List Event → List (Event × Bool)
  | [] => []
  | e :: rest =>
    let h := updHeld held e
    (e, h) :: annotateHeld h rest

/-! ## Worker loop termination (sensorPooler.run lines 295-304)

The loop `while True: with lock: pool; if daemon_enabled: sleep else
break` as a step function on an abstract worker state.  One `polling`
step performs the locked polling pass; `daemon_enabled` decides whether
the worker then sleeps and loops or breaks to the terminal state. -/

inductive WPhase where
  | polling
  | sleeping
  | done
deriving DecidableEq, Repr

structure WState where
  phase : WPhase
  daemonMode : Bool
  pollPasses : Nat
deriving DecidableEq, Repr

def wstep (s : WState) : WState :=
  match s.phase with
  | .polling =>
    if s.daemonMode then ⟨.sleeping, s.daemonMode, s.pollPasses + 1⟩
    else ⟨.done, s.daemonMode, s.pollPasses + 1⟩
  | .sleeping => ⟨.polling, s.daemonMode, s.pollPasses⟩
  | .done => s

/-- A worker as started by sensorPooler.__init__: about to run its first
polling pass. -/
def winit (daemonFlag : Bool) : WState := ⟨.polling, daemonFlag, 0⟩

/-! ## Startup configuration checks (lines 154-157 and 338-344)

re.match anchors at the start of the string only, so a MAC address is
accepted when the class pattern matches a prefix of it. -/

def isHexUpper (c : Char) : Bool := c.isDigit || ('A' ≤ c && c ≤ 'F')

/-- Match a literal character sequence at the head of the input. -/
def matchLit : List Char → List Char → Option (List Char)
  | [], rest => some rest
  | _ :: _, [] => none
  | p :: ps, c :: cs => if c = p then matchLit ps cs else none

/-- Match `[0-9A-F]\x7b2\x7d` at the head of the input. -/
def matchHexPair : List Char → Option (List Char)
  | a :: b :: rest => if isHexUpper a && isHexUpper b then some rest else none
  | _ => none

/-- Match `[0-9A-F]\x7b2\x7d:[0-9A-F]\x7b2\x7d:[0-9A-F]\x7b2\x7d`. -/
def matchTail3 (cs : List Char) : Bool :=
  (match matchHexPair cs with
   | none => none
   | some r1 =>
     match matchLit [':'] r1 with
     | none => none
     | some r2 =>
       match matchHexPair r2 with
       | none => none
       | some r3 =>
         match matchLit [':'] r3 with
         | none => none
         | some r4 => matchHexPair r4).isSome

/-- re.match of `C4:7C:8D:[0-9A-F]\x7b2\x7d:[0-9A-F]\x7b2\x7d:[0-9A-F]\x7b2\x7d`
against a MiFlora MAC address (line 146). -/
def macMatchMiflora (mac : String) : Bool :=
  match matchLit "C4:7C:8D:".data mac.data with
  | some rest => matchTail3 rest
  | none => false

/-- re.match of `(4C:65:A8|58:2D:34):[0-9A-F]\x7b2\x7d:...` against a
MiTempBt MAC address (line 149). -/
def macMatchMitempbt (mac : String) : Bool :=
  match matchLit "4C:65:A8:".data mac.data with
  | some rest => matchTail3 rest
  | none =>
    match matchLit "58:2D:34:".data mac.data with
    | some rest => matchTail3 rest
    | none => false

/-- The configuration facts the startup checks consult: the reporting
mode string and the `name = mac` entries of the two sensor sections. -/
structure Config where
  reportingMode : String
  mifloraEntries : List (String × String)
  mitempbtEntries : List (String × String)

/-- The recognized reporting_method values (line 339). -/
def validModes : List String :=
  ["mqtt-json", "mqtt-homie", "json", "mqtt-smarthome", "homeassistant-mqtt",
   "thingsboard-json", "wirenboard-mqtt"]

inductive StartupResult where
  | exited : Nat → StartupResult
  | started : Nat → StartupResult
deriving DecidableEq, Repr

/-- The module-level startup sequence, up to the point where worker
threads are spawned: the reporting-mode check and the empty-registry
check (lines 339-344) run first, then init_sensors validates every
configured MAC address against its class pattern and sys.exit(1)s on the
first mismatch (lines 154-157); when all checks pass, one worker is
started per non-empty registry (lines 539-543).  The broker connection
is an external collaborator and is modelled as succeeding. -/
def startup (cfg : Config) : StartupResult :=
  if !(validModes.contains cfg.reportingMode) then .exited 1
  else if cfg.mifloraEntries.isEmpty && cfg.mitempbtEntries.isEmpty then .exited 1
  else if cfg.mifloraEntries.any (fun e => !(macMatchMiflora e.2)) then .exited 1
  else if cfg.mitempbtEntries.any (fun e => !(macMatchMitempbt e.2)) then .exited 1
  else .started ((if cfg.mifloraEntries.isEmpty then 0 else 1)
    + (if cfg.mitempbtEntries.isEmpty then 0 else 1))

/-! ## Registry population (init_sensors lines 159-196)

The initial-connection attempt is a try/except whose else-branch records
the firmware version; the `sensors[name_clean] = sensor` assignment at
line 196 runs on both paths, so a sensor whose initial connection failed
is registered without a 'firmware' key.  The connection outcome is
modelled as an optional firmware string. -/

/-- The sensor dict built for one configuration entry. -/
def initSensorEntry (nameClean namePretty mac : String)
    (connectOutcome : Option String) : Sensor :=
  { nameClean := nameClean, namePretty := namePretty, mac := mac,
    firmware := connectOutcome, stats := initialStats }

/-- init_sensors over a list of entries
(nameClean, namePretty, mac, connection outcome): every entry is added
to the registry, whatever its connection outcome. -/
def initSensorsModel (entries : List (String × String × String × Option String)) :
    List (String × Sensor) :=
  entries.map (fun e => (e.1, initSensorEntry e.1 e.2.1 e.2.2.1 e.2.2.2))

/-- A Python runtime error as raised by the dispatch and discovery code
paths modelled here. -/
inductive PyErr where
  | typeError : PyErr
  | keyError : String → PyErr
deriving DecidableEq, Repr

/-- The local-only "json" mode branch (lines 269-275): the data dict is
extended with timestamp, name, name_pretty, mac and firmware and printed.
`sensor['firmware']` raises KeyError when init_sensors never recorded a
firmware version for this sensor. -/
def jsonModeOutput (sensorName : String) (s : Sensor) (data : Reading)
    (localTime : String) : Except PyErr String :=
  match s.firmware with
  | none => .error (.keyError "firmware")
  | some fw =>
    .ok ("Data for \"" ++ sensorName ++ "\": "
      ++ jsonDumps (data ++ [("timestamp", Val.vstr localTime),
           ("name", Val.vstr sensorName),
           ("name_pretty", Val.vstr s.namePretty),
           ("mac", Val.vstr s.mac),
           ("firmware", Val.vstr fw)]))

/-! ## homeassistant-mqtt discovery for MiTempBt sensors (lines 486-506)

The outer loop binds (mitempbt_name, mitempbt); the inner loop
`for sensor, params in mitempbt_parameters.items():` rebinds the name
`sensor` to the parameter-name string, and the device descriptor then
evaluates sensor['mac'] and sensor['firmware'] on that string.  A small
Python value model gives indexing its runtime semantics: indexing a
string (or a list) with a string key raises TypeError, indexing a dict
with an absent key raises KeyError. -/

inductive PyVal where
  | pstr : String → PyVal
  | plist : List PyVal → PyVal
  | pdict : List (String × PyVal) → PyVal
deriving Repr

/-- Python's v[key] for a string key. -/
def pyIndex (v : PyVal) (key : String) : Except PyErr PyVal :=
  match v with
  | .pdict kvs =>
    match kvs.lookup key with
    | some x => .ok x
    | none => .error (.keyError key)
  | .pstr _ => .error .typeError
  | .plist _ => .error .typeError

/-- Python's v.lower() — only strings are lowered on the modelled paths. -/
def pyLower (v : PyVal) : Except PyErr PyVal :=
  match v with
  | .pstr s => .ok (.pstr s.toLower)
  | _ => .error .typeError

mutual

/-- json.dumps over the Python value model. -/
def pyDumps : PyVal → String
  | .pstr s => "\"" ++ s ++ "\""
  | .plist xs => "[" ++ String.intercalate ", " (pyDumpsList xs) ++ "]"
  | .pdict kvs => "\x7b" ++ String.intercalate ", " (pyDumpsKVs kvs) ++ "\x7d"

def pyDumpsList : List PyVal → List String
  | [] => []
  | x :: xs => pyDumps x :: pyDumpsList xs

def pyDumpsKVs : List (String × PyVal) → List String
  | [] => []
  | kv :: xs => ("\"" ++ kv.1 ++ "\": " ++ pyDumps kv.2) :: pyDumpsKVs xs

end

/-- mitempbt_parameters (lines 43-47): parameter key and unit, in
OrderedDict order. -/
def mitempbtParams : List (String × String) :=
  [("temperature", "°C"), ("humidity", "%"), ("battery", "%")]

/-- The body of the inner discovery loop for one MiTempBt sensor and one
parameter (lines 491-506).  `sensor` is the value the name `sensor` is
bound to at this point of the source — the parameter-name string, because
the inner loop header rebinds it. -/
def haMitempbtParamAction (base mitempbtName : String) (sensor : PyVal)
    (paramKey unit : String) : Except PyErr PublishAction := do
  let payload : List (String × PyVal) :=
    [("state_topic", PyVal.pstr ((base ++ "/sensor/" ++ mitempbtName ++ "/state").toLower))]
  let payload := payload ++ [("unit_of_measurement", PyVal.pstr unit)]
  let payload := payload
    ++ [("value_template", PyVal.pstr ("\x7b\x7b value_json." ++ paramKey ++ " \x7d\x7d"))]
  let payload := payload
    ++ [("name", PyVal.pstr (mitempbtName ++ " " ++ paramKey.capitalize))]
  let macLower ← pyIndex sensor "mac" >>= pyLower
  let macId ← match macLower with
    | .pstr s => Except.ok (s.replace ":" "")
    | _ => Except.error PyErr.typeError
  let fw ← pyIndex sensor "firmware"
  let device := PyVal.pdict
    [("identifiers", PyVal.plist [PyVal.pstr ("MiTempBt" ++ macId)]),
     ("connections", PyVal.plist [PyVal.plist [PyVal.pstr "mac", macLower]]),
     ("manufacturer", PyVal.pstr "Xiaomi"),
     ("name", PyVal.pstr mitempbtName),
     ("model", PyVal.pstr "Mijia Temperature and Humidity Sensor (LYWSDCGQ/01ZM)"),
     ("sw_version", fw)]
  let payload := payload ++ [("device", device)]
  Except.ok
    ⟨(base ++ "/sensor/" ++ mitempbtName ++ "/" ++ mitempbtName ++ "_" ++ paramKey
        ++ "/config").toLower,
     pyDumps (PyVal.pdict payload), 1, true⟩

/-- The MiTempBt half of the homeassistant-mqtt discovery block
(lines 486-506): for every registered sensor, for every parameter, build
and publish (collect) the config payload.  The inner loop rebinds the
name `sensor` to the parameter key before the payload is built. -/
def haDiscoveryMitempbt (base : String) (mitempbts : List (String × PyVal)) :
    Except PyErr (List PublishAction) :=
  mitempbts.foldlM (fun acc nd =>
    mitempbtParams.foldlM (fun acc2 pu =>
      let sensor := PyVal.pstr pu.1
      do
        let a ← haMitempbtParamAction base nd.1 sensor pu.1 pu.2
        pure (acc2 ++ [a])) acc) []

/-! ## Concrete inputs used by witnesses and counterexamples -/

/-- The Reading of the spec's dispatcher test vector:
Temperature 21.5, Battery 80. -/
def kitchenReading : Reading :=
  [("Temperature", Val.vdec 21 5), ("Battery", Val.vint 80)]

/-- A reader behaviour that succeeds at once with kitchenReading. -/
def okReader : Nat → Option Reading := fun _ => some kitchenReading

/-- A reader behaviour for which every attempt raises. -/
def failReader : Nat → Option Reading := fun _ => none

/-- A registered sensor used in concrete traces. -/
def kitchenSensor : Sensor :=
  ⟨"kitchen", "Kitchen", "C4:7C:8D:AA:BB:CC", some "3.1.9", initialStats⟩

/-- One daemon-mode cycle trace of the mqtt-json worker on the kitchen
sensor. -/
def exTrace : List Event :=
  cycleEvents true Mode.mqttJson "misensor" "miflora-mqtt-daemon" 0 "lt"
    [(okReader, kitchenSensor)]

/-! ## Helper lemmas -/

/-- Every acquire call increments count exactly once and then exactly one
of success / failure. -/
theorem acquire_stats_cases (reader : Nat → Option Reading) (st : Stats) :
    (acquire reader st).2.count = st.count + 1 ∧
    (((acquire reader st).2.success = st.success + 1
        ∧ (acquire reader st).2.failure = st.failure) ∨
     ((acquire reader st).2.success = st.success
        ∧ (acquire reader st).2.failure = st.failure + 1)) := by
  unfold acquire
  cases (runAcquireLoop reader 0 2).1 <;> simp

/-- acquire preserves the count = success + failure invariant. -/
theorem acquire_inv (reader : Nat → Option Reading) (st : Stats)
    (h : st.count = st.success + st.failure) :
    (acquire reader st).2.count
      = (acquire reader st).2.success + (acquire reader st).2.failure := by
  obtain ⟨hc, hsp⟩ := acquire_stats_cases reader st
  rcases hsp with ⟨hs, hf⟩ | ⟨hs, hf⟩ <;> rw [hc, hs, hf] <;> omega

/-- The invariant holds after any number of acquire cycles. -/
theorem foldl_acquire_inv (cycles : List (Nat → Option Reading)) (st : Stats)
    (h : st.count = st.success + st.failure) :
    (cycles.foldl (fun s r => (acquire r s).2) st).count
      = (cycles.foldl (fun s r => (acquire r s).2) st).success
        + (cycles.foldl (fun s r => (acquire r s).2) st).failure := by
  induction cycles generalizing st with
  | nil => simpa using h
  | cons r rest ih =>
    simp only [List.foldl_cons]
    exact ih _ (acquire_inv r st h)

/-! ## Claims -/

/-- C1: for every SensorInstance and after any number of completed poll
cycles, attemptedCycles = succeededCycles + failedCycles; each acquire
call increments the attempt counter exactly once and then exactly one of
the success / failure counters. -/
theorem health_counters_invariant (reader : Nat → Option Reading) (st : Stats)
    (h : st.count = st.success + st.failure)
    (cycles : List (Nat → Option Reading)) :
    (acquire reader st).2.count = st.count + 1 ∧
    (((acquire reader st).2.success = st.success + 1
        ∧ (acquire reader st).2.failure = st.failure) ∨
     ((acquire reader st).2.success = st.success
        ∧ (acquire reader st).2.failure = st.failure + 1)) ∧
    (acquire reader st).2.count
      = (acquire reader st).2.success + (acquire reader st).2.failure ∧
    (cycles.foldl (fun s r => (acquire r s).2) initialStats).count
      = (cycles.foldl (fun s r => (acquire r s).2) initialStats).success
        + (cycles.foldl (fun s r => (acquire r s).2) initialStats).failure := by
  obtain ⟨hc, hsp⟩ := acquire_stats_cases reader st
  exact ⟨hc, hsp, acquire_inv reader st h, foldl_acquire_inv cycles initialStats rfl⟩

/-- C1 witness: the invariant, discharged at a concrete instance. -/
theorem health_counters_invariant_witness :
    initialStats.count = initialStats.success + initialStats.failure ∧
    (acquire failReader initialStats).2.count
      = (acquire failReader initialStats).2.success
        + (acquire failReader initialStats).2.failure :=
  ⟨rfl,
   (health_counters_invariant failReader initialStats rfl [okReader, failReader]).2.2.1⟩

/-- C2: one acquisition call issues at most 2 fill attempts, and it
returns (and records) failure exactly when both attempts fail. -/
theorem acquisition_two_attempts (reader : Nat → Option Reading) (st : Stats) :
    (runAcquireLoop reader 0 2).2 ≤ 2 ∧
    (runAcquireLoop reader 0 2).1.isNone
      = ((reader 0).isNone && (reader 1).isNone) ∧
    ((acquire reader st).2.failure = st.failure + 1
      ↔ (reader 0 = none ∧ reader 1 = none)) := by
  cases h0 : reader 0 <;> cases h1 : reader 1 <;>
    simp [runAcquireLoop, acquire, h0, h1]

/-- A publish event leaves the lock-held flag unchanged. -/
theorem updHeld_of_publish (held : Bool) (e : Event) (he : isPublishEv e = true) :
    updHeld held e = held := by
  cases e with
  | publish a => rfl
  | lockAcquire => exact Bool.noConfusion he
  | lockRelease => exact Bool.noConfusion he
  | sleepCycle => exact Bool.noConfusion he

/-- Annotating a run of publish events under a held lock marks each of
them as executing with the lock held. -/
theorem annotateHeld_publish_run (pubs rest : List Event)
    (h : ∀ e ∈ pubs, isPublishEv e = true) :
    annotateHeld true (pubs ++ rest)
      = pubs.map (fun e => (e, true)) ++ annotateHeld true rest := by
  induction pubs with
  | nil => rfl
  | cons e es ih =>
    have he : isPublishEv e = true := h e (by simp)
    have hrest : ∀ x ∈ es, isPublishEv x = true := fun x hx => h x (by simp [hx])
    rw [List.cons_append]
    show (e, updHeld true e) :: annotateHeld (updHeld true e) (es ++ rest)
      = ((e :: es).map (fun e => (e, true))) ++ annotateHeld true rest
    rw [updHeld_of_publish true e he, ih hrest, List.map_cons, List.cons_append]

/-- Every event of poolPublishEvents is a publish. -/
theorem poolPublishEvents_publish (mode : Mode) (base deviceId : String)
    (tsMs : Nat) (localTime : String) (xs : List ((Nat → Option Reading) × Sensor)) :
    ∀ e ∈ poolPublishEvents mode base deviceId tsMs localTime xs,
      isPublishEv e = true := by
  intro e he
  simp only [poolPublishEvents, List.mem_flatten, List.mem_map] at he
  obtain ⟨l, ⟨p, _, rfl⟩, hel⟩ := he
  obtain ⟨a, _, rfl⟩ := List.mem_map.mp hel
  rfl

/-- C3 counterexample: in a concrete mqtt-json daemon cycle, the publish
to misensor/kitchen executes while the bus lock is held — the lock is not
released before the cycle's network publishes. -/
theorem publish_under_lock_cex :
    (Event.publish ⟨"misensor/kitchen", jsonDumps kitchenReading, 0, false⟩, true)
      ∈ annotateHeld false exTrace := by decide

/-- C3 amended: in every worker cycle the bus lock is held while each of
that cycle's publish calls executes (pool_sensors publishes inside the
with-block), and it is released before the inter-cycle sleep. -/
theorem lock_held_for_publish_released_before_sleep
    (daemonFlag : Bool) (mode : Mode) (base deviceId : String) (tsMs : Nat)
    (localTime : String) (xs : List ((Nat → Option Reading) × Sensor))
    (p : Event × Bool)
    (hp : p ∈ annotateHeld false
      (cycleEvents daemonFlag mode base deviceId tsMs localTime xs)) :
    (isPublishEv p.1 = true → p.2 = true)
      ∧ (p.1 = Event.sleepCycle → p.2 = false) := by
  have hpub := poolPublishEvents_publish mode base deviceId tsMs localTime xs
  rw [cycleEvents] at hp
  rw [show annotateHeld false
        (Event.lockAcquire
          :: poolPublishEvents mode base deviceId tsMs localTime xs
            ++ Event.lockRelease :: (if daemonFlag then [Event.sleepCycle] else []))
      = (Event.lockAcquire, true)
        :: annotateHeld true
            (poolPublishEvents mode base deviceId tsMs localTime xs
              ++ Event.lockRelease :: (if daemonFlag then [Event.sleepCycle] else []))
     from rfl] at hp
  rw [annotateHeld_publish_run _ _ hpub] at hp
  rcases List.mem_cons.mp hp with rfl | hp
  · exact ⟨fun _ => rfl, fun h => Event.noConfusion h⟩
  rcases List.mem_append.mp hp with hp | hp
  · obtain ⟨e, he, rfl⟩ := List.mem_map.mp hp
    refine ⟨fun _ => rfl, fun h => ?_⟩
    exfalso
    have hps := hpub e he
    have hes : e = Event.sleepCycle := h
    rw [hes] at hps
    exact Bool.noConfusion hps
  · have hx : annotateHeld true
        (Event.lockRelease :: (if daemonFlag then [Event.sleepCycle] else []))
        = (Event.lockRelease, false)
          :: (if daemonFlag then [(Event.sleepCycle, false)] else []) := by
      cases daemonFlag <;> rfl
    rw [hx] at hp
    rcases List.mem_cons.mp hp with rfl | hp
    · exact ⟨fun h => Bool.noConfusion h, fun h => Event.noConfusion h⟩
    · cases daemonFlag with
      | true =>
        have hps : p = (Event.sleepCycle, false) := by simpa using hp
        rw [hps]
        exact ⟨fun h => h, fun _ => rfl⟩
      | false => simp at hp

/-- C3 amended, witness: the publish of the concrete trace runs with the
lock held and its sleep with the lock released. -/
theorem lock_held_for_publish_witness :
    (isPublishEv (Event.publish
        ⟨"misensor/kitchen", jsonDumps kitchenReading, 0, false⟩) = true
      → true = true)
    ∧ ((Event.publish ⟨"misensor/kitchen", jsonDumps kitchenReading, 0, false⟩)
        = Event.sleepCycle → true = false) :=
  lock_held_for_publish_released_before_sleep true Mode.mqttJson "misensor"
    "miflora-mqtt-daemon" 0 "lt" [(okReader, kitchenSensor)]
    (Event.publish ⟨"misensor/kitchen", jsonDumps kitchenReading, 0, false⟩, true)
    (by decide)

/-- C4: in mqtt-json mode, dispatching the kitchen sensor's Reading
(Temperature 21.5, Battery 80) yields exactly one PublishAction with
topic base/kitchen, and deserializing its JSON payload yields back
exactly the input Reading. -/
theorem mqtt_json_single_action_roundtrip (base deviceId : String)
    (tsMs : Nat) (localTime : String) :
    dispatch Mode.mqttJson base deviceId "kitchen" kitchenReading tsMs localTime
      = [⟨base ++ "/kitchen", jsonDumps kitchenReading, 0, false⟩] ∧
    jsonParse (jsonDumps kitchenReading) = some kitchenReading := by
  constructor
  · show [(⟨base ++ "/" ++ "kitchen", jsonDumps kitchenReading, 0, false⟩ : PublishAction)] = _
    have hk : ("/" ++ "kitchen" : String) = "/kitchen" := by decide
    rw [String.append_assoc, hk]
  · decide

/-- C5: in mqtt-homie mode with deviceId plant-daemon, dispatching the
kitchen Reading yields exactly 2 PublishActions with the per-parameter
topics, each QoS 1 and retain false. -/
theorem mqtt_homie_two_actions (base : String) (tsMs : Nat) (localTime : String) :
    dispatch Mode.mqttHomie base "plant-daemon" "kitchen" kitchenReading tsMs localTime
      = [⟨base ++ "/plant-daemon/kitchen/Temperature", "21.5", 1, false⟩,
         ⟨base ++ "/plant-daemon/kitchen/Battery", "80", 1, false⟩] := by
  show [(⟨base ++ "/" ++ "plant-daemon" ++ "/" ++ "kitchen" ++ "/" ++ "Temperature",
          valRaw (Val.vdec 21 5), 1, false⟩ : PublishAction),
        ⟨base ++ "/" ++ "plant-daemon" ++ "/" ++ "kitchen" ++ "/" ++ "Battery",
          valRaw (Val.vint 80), 1, false⟩] = _
  simp only [String.append_assoc]
  rfl

/-- C6: a configuration with an unrecognized reporting mode, an invalid
hardware address, or both sensor registries empty makes startup exit with
status 1 before any worker is started. -/
theorem startup_config_failure_exits (cfg : Config)
    (h : validModes.contains cfg.reportingMode = false
      ∨ (cfg.mifloraEntries.any (fun e => !(macMatchMiflora e.2)) = true
          ∨ cfg.mitempbtEntries.any (fun e => !(macMatchMitempbt e.2)) = true)
      ∨ (cfg.mifloraEntries = [] ∧ cfg.mitempbtEntries = [])) :
    startup cfg = StartupResult.exited 1
      ∧ ∀ k, startup cfg ≠ StartupResult.started k := by
  have hx : startup cfg = StartupResult.exited 1 := by
    unfold startup
    split_ifs with h1 h2 h3 h4 <;> try rfl
    exfalso
    rcases h with h | h | h
    · exact h1 (by rw [h]; rfl)
    · rcases h with h | h
      · exact h3 h
      · exact h4 h
    · exact h2 (by rw [h.1, h.2]; rfl)
  refine ⟨hx, fun k hk => ?_⟩
  rw [hx] at hk
  exact StartupResult.noConfusion hk

/-- C6 witness: an unrecognized mode exits with status 1. -/
theorem startup_config_failure_exits_witness :
    startup ⟨"bogus", [("plant", "C4:7C:8D:AA:BB:CC")], []⟩
      = StartupResult.exited 1 :=
  (startup_config_failure_exits ⟨"bogus", [("plant", "C4:7C:8D:AA:BB:CC")], []⟩
    (Or.inl (by decide))).1

/-- C7: a sensor whose acquisition failed in the current cycle produces
no publish action (its failure counter is the only effect), and the
polling pass still processes every sensor of the registry in order. -/
theorem failed_sensor_not_dispatched (mode : Mode) (base deviceId : String)
    (tsMs : Nat) (localTime : String) (reader : Nat → Option Reading) (s : Sensor)
    (hfail : (runAcquireLoop reader 0 2).1 = none)
    (xs : List ((Nat → Option Reading) × Sensor)) :
    (poolOne mode base deviceId tsMs localTime reader s).2 = [] ∧
    (poolOne mode base deviceId tsMs localTime reader s).1.stats.failure
      = s.stats.failure + 1 ∧
    (poolSensors mode base deviceId tsMs localTime xs).length = xs.length ∧
    (∀ i : Nat, (poolSensors mode base deviceId tsMs localTime xs)[i]?
      = (xs[i]?).map (fun rs : (Nat → Option Reading) × Sensor =>
          poolOne mode base deviceId tsMs localTime rs.1 rs.2)) := by
  refine ⟨?_, ?_, List.length_map xs _, fun i => List.getElem?_map _ xs i⟩ <;>
    simp [poolOne, acquire, hfail]

/-- C7 witness: a concrete always-failing sensor yields no publish
action. -/
theorem failed_sensor_not_dispatched_witness :
    (poolOne Mode.mqttJson "misensor" "miflora-mqtt-daemon" 0 "lt" failReader
      kitchenSensor).2 = [] :=
  (failed_sensor_not_dispatched Mode.mqttJson "misensor" "miflora-mqtt-daemon"
    0 "lt" failReader kitchenSensor rfl [(failReader, kitchenSensor)]).1

/-- A daemon-mode worker step never enters the terminal state. -/
theorem wstep_daemon_not_done (s : WState) (hphase : s.phase ≠ WPhase.done)
    (hd : s.daemonMode = true) :
    (wstep s).phase ≠ WPhase.done ∧ (wstep s).daemonMode = true := by
  obtain ⟨ph, dm, pp⟩ := s
  cases ph with
  | polling =>
    simp only at hd
    simp [wstep, hd]
  | sleeping => exact ⟨fun h => WPhase.noConfusion h, hd⟩
  | done => exact absurd rfl hphase

/-- C8: in one-shot mode the worker performs exactly one polling pass and
then stays in its terminal state; in daemon mode the worker never reaches
the terminal state. -/
theorem worker_oneshot_vs_daemon :
    (∀ n : Nat, wstep^[n + 1] (winit false)
      = ⟨WPhase.done, false, 1⟩) ∧
    (∀ n : Nat, (wstep^[n] (winit true)).phase ≠ WPhase.done) := by
  constructor
  · intro n
    rw [Function.iterate_succ_apply]
    exact Function.iterate_fixed rfl n
  · intro n
    have key : ∀ m : Nat, (wstep^[m] (winit true)).phase ≠ WPhase.done
        ∧ (wstep^[m] (winit true)).daemonMode = true := by
      intro m
      induction m with
      | zero => exact ⟨fun h => WPhase.noConfusion h, rfl⟩
      | succ k ih =>
        rw [Function.iterate_succ_apply']
        exact wstep_daemon_not_done _ ih.1 ih.2
    exact (key n).1

/-- C9: in homeassistant-mqtt mode, the MiTempBt discovery block raises
TypeError in every run with at least one registered MiTempBt sensor: the
inner per-parameter loop rebinds the name `sensor` to the parameter-name
string and the device descriptor then indexes that string with the key
mac, so ClassB discovery never completes. -/
theorem ha_discovery_mitempbt_type_error (base : String)
    (mitempbts : List (String × PyVal)) (h : mitempbts ≠ []) :
    haDiscoveryMitempbt base mitempbts = Except.error PyErr.typeError := by
  obtain ⟨nd, rest, rfl⟩ := List.exists_cons_of_ne_nil h
  rfl

/-- C9 witness: a single registered MiTempBt sensor makes discovery raise
TypeError. -/
theorem ha_discovery_mitempbt_type_error_witness :
    haDiscoveryMitempbt "homeassistant"
      [("kitchen", PyVal.pdict [("mac", PyVal.pstr "4C:65:A8:01:02:03")])]
      = Except.error PyErr.typeError :=
  ha_discovery_mitempbt_type_error "homeassistant"
    [("kitchen", PyVal.pdict [("mac", PyVal.pstr "4C:65:A8:01:02:03")])]
    (List.cons_ne_nil _ _)

/-- poolOne always installs the stats updated by acquire, whatever the
outcome. -/
theorem poolOne_stats (mode : Mode) (base deviceId : String) (tsMs : Nat)
    (localTime : String) (reader : Nat → Option Reading) (s : Sensor) :
    (poolOne mode base deviceId tsMs localTime reader s).1.stats
      = (acquire reader s.stats).2 := by
  unfold poolOne
  cases hq : (acquire reader s.stats).1 <;> simp [hq]

/-- C10: a sensor whose initial connection failed at startup is still
added to the registry (and each polling pass still counts an attempt for
it), but carries no firmware entry; in local-only json mode a later
successful dispatch for it raises KeyError on the firmware lookup. -/
theorem failed_init_registered_then_keyerror
    (entries : List (String × String × String × Option String))
    (e : String × String × String × Option String) (he : e ∈ entries)
    (hfail : e.2.2.2 = none) (data : Reading) (localTime : String)
    (mode : Mode) (base deviceId : String) (tsMs : Nat) (localTime2 : String)
    (reader : Nat → Option Reading) :
    (e.1, initSensorEntry e.1 e.2.1 e.2.2.1 e.2.2.2) ∈ initSensorsModel entries ∧
    (initSensorEntry e.1 e.2.1 e.2.2.1 e.2.2.2).firmware = none ∧
    jsonModeOutput e.1 (initSensorEntry e.1 e.2.1 e.2.2.1 e.2.2.2) data localTime
      = Except.error (PyErr.keyError "firmware") ∧
    (poolOne mode base deviceId tsMs localTime2 reader
        (initSensorEntry e.1 e.2.1 e.2.2.1 e.2.2.2)).1.stats.count = 1 := by
  refine ⟨List.mem_map.mpr ⟨e, he, rfl⟩, hfail, ?_, ?_⟩
  · simp [jsonModeOutput, initSensorEntry, hfail]
  · rw [poolOne_stats]
    exact (acquire_stats_cases reader initialStats).1

/-- C10 witness: the concrete failed-init sensor raises the firmware
KeyError in json mode. -/
theorem failed_init_registered_keyerror_witness :
    jsonModeOutput "kitchen"
      (initSensorEntry "kitchen" "Kitchen" "4C:65:A8:01:02:03" none) [] "lt"
      = Except.error (PyErr.keyError "firmware") :=
  (failed_init_registered_then_keyerror
    [("kitchen", "Kitchen", "4C:65:A8:01:02:03", none)]
    ("kitchen", "Kitchen", "4C:65:A8:01:02:03", none)
    (List.mem_singleton.mpr rfl) rfl [] "lt" Mode.localJson "misensor" "d" 0 "lt2"
    failReader).2.2.1

end Miflora
